import Mathlib

/-!
Verification of the agent orchestration core of the `assistant` repository.

The development shallowly embeds the core sources:
  * `src/core/tokenCounter.ts` — token budget estimator,
  * `src/core/contextManager.ts` — conversation summarization,
  * `src/core/agent.ts` — the agent loop, tool dispatch and tracing,
  * `src/types/index.ts` — the data model,
together with the constants they import (`src/prompts/system.ts`,
`src/tools/definitions.ts`).

Modelling conventions:
  * `Result<T>` values (`{success:true,data} | {success:false,error}`) become
    `Except AgentError T`; thrown exceptions that the source catches and turns
    into `Result` errors are modelled as `Except` errors directly.  The source
    distinguishes error cases only by the `Error` message string; the
    `AgentError` inductive keeps the data of each message template and
    `AgentError.message` renders exactly the source strings.
  * External collaborators (conversation store, completion provider, tool
    registry, trace sink) are fields of an explicit `Env` record.
  * Wall-clock readings (`new Date().toISOString()`, `performance.now()`) and
    `randomUUID()` influence no control flow; they are abstracted to fixed
    `Env` fields (`time`, `uuid`) and a zero duration.
  * JavaScript `number` arithmetic on prices is modelled with exact rationals;
    token counts are natural numbers.
  * Tool input payloads and serialized tool outputs are opaque at the core
    layer (`unknown` in the source) and are modelled as strings.
-/

namespace Assistant

/-! ## Token budget estimator (`src/core/tokenCounter.ts`) -/

/-- Modelled from the spec: the sub-word token encoder.  The repository counts
tokens with the external `tiktoken` cl100k encoder, whose implementation is not
part of this repository; the spec only requires a deterministic, stable
sub-word model that is monotone in string length.  We realize it as greedy
chunking of the character stream into sub-words of at most four characters. -/
def encodeChunks : List Char → List (List Char)
  | [] => []
  | [a] => [[a]]
  | [a, b] => [[a, b]]
  | [a, b, c] => [[a, b, c]]
  | a :: b :: c :: d :: rest => [a, b, c, d] :: encodeChunks rest

/-- Source `countTokens` (tokenCounter.ts): returns 0 for a falsy (empty)
string and otherwise the number of tokens produced by the encoder. -/
def countTokens (text : String) : Nat :=
  if text = "" then 0 else (encodeChunks text.data).length

/-- Source constant `CLAUDE_CONTEXT_LIMIT` (tokenCounter.ts). -/
def CLAUDE_CONTEXT_LIMIT : Nat := 200000

/-- Source constant `SUMMARIZATION_THRESHOLD` (tokenCounter.ts). -/
def SUMMARIZATION_THRESHOLD : Nat := 150000

/-- Source constant `MAX_TOKENS_PER_REQUEST` (tokenCounter.ts). -/
def MAX_TOKENS_PER_REQUEST : Nat := 4096

/-! ## Data model (`src/types/index.ts` and the Anthropic SDK message types) -/

/-- Message roles: the strings `user` and `assistant`. -/
inductive Role where
  | user
  | assistant
deriving DecidableEq, Repr

/-- The role string as it appears in a `MessageParam` (`message.role`). -/
def Role.toStr : Role → String
  | .user => "user"
  | .assistant => "assistant"

/-- Content blocks of a message: a text block, a tool-invocation request
(`tool_use`: id, name, input payload), or a tool-invocation result
(`tool_result`: the correlated call id plus a result content that is a string
or some non-string value, modelled as `none`). -/
inductive ContentBlock where
  | text (text : String)
  | toolUse (id : String) (name : String) (input : String)
  | toolResult (toolUseId : String) (content : Option String)
deriving DecidableEq, Repr

/-- A `tool_use` block extracted from a provider response, as consumed by
`executeToolCall` (agent.ts). -/
structure ToolUseBlock where
  id : String
  name : String
  input : String
deriving DecidableEq, Repr

/-- Message content: either plain text or an ordered block sequence. -/
inductive MessageContent where
  | str (s : String)
  | blocks (bs : List ContentBlock)
deriving DecidableEq, Repr

/-- SDK `MessageParam`: a role plus content. -/
structure MessageParam where
  role : Role
  content : MessageContent
deriving DecidableEq, Repr

/-- Source type `SummaryMetadata` (types/index.ts). -/
structure SummaryMetadata where
  summarizedAt : String
  originalMessageCount : Nat
  messagesKept : Nat
  tokenCountBefore : Nat
  tokenCountAfter : Nat
deriving DecidableEq, Repr

/-- Source type `Conversation` (types/index.ts); `tokenCount` and `summaries`
are optional fields. -/
structure Conversation where
  id : String
  startedAt : String
  lastMessageAt : String
  messages : List MessageParam
  tokenCount : Option Nat
  summaries : Option (List SummaryMetadata)
deriving DecidableEq, Repr

/-- SDK `Tool`: name, optional description, and its `input_schema`.  The core
consumes the schema only through `JSON.stringify`, so the schema is carried in
its serialized form. -/
structure Tool where
  name : String
  description : Option String
  inputSchemaJson : String
deriving DecidableEq, Repr

/-! ## Token counting over messages and tools (`src/core/tokenCounter.ts`) -/

/-- The per-block contribution inside `countMessageTokens`: a block with a
`text` field counts its text; a block with a `tool_use_id` field (a tool
result) counts the call id plus its content when that content is a string; a
`tool_use` block has neither field and counts 0. -/
def countBlockTokens : ContentBlock → Nat
  | .text t => countTokens t
  | .toolUse _ _ _ => 0
  | .toolResult toolUseId content =>
      countTokens toolUseId +
        (match content with
         | some s => countTokens s
         | none => 0)

/-- The loop body of `countMessageTokens`: adds the fixed overhead of 4, the
role token count, and the content contribution into the running total. -/
def msgFoldStep (total : Nat) (message : MessageParam) : Nat :=
  let total := total + 4
  let total := total + countTokens message.role.toStr
  match message.content with
  | .str s => total + countTokens s
  | .blocks bs => bs.foldl (fun t block => t + countBlockTokens block) total

/-- Source `countMessageTokens` (tokenCounter.ts): accumulates, per message, a
fixed overhead of 4, the role token count, and the content contribution. -/
def countMessageTokens (messages : List MessageParam) : Nat :=
  messages.foldl msgFoldStep 0

/-- Source `countToolTokens` (tokenCounter.ts): name, description (or empty
string), serialized schema, plus a formatting overhead of 10 per tool. -/
def countToolTokens (ts : List Tool) : Nat :=
  ts.foldl
    (fun total tool =>
      total + countTokens tool.name + countTokens (tool.description.getD "") +
        countTokens tool.inputSchemaJson + 10)
    0

/-- Source `getTotalRequestTokens` (tokenCounter.ts): the authoritative
pre-flight estimate for a complete request. -/
def getTotalRequestTokens (systemPrompt : String) (messages : List MessageParam)
    (ts : List Tool) : Nat :=
  countTokens systemPrompt + countMessageTokens messages + countToolTokens ts

/-- Source constant `systemPrompt` (prompts/system.ts), transcribed verbatim. -/
def systemPrompt : String :=
  "You are a helpful personal assistant that helps users manage their tasks and stay organized. You have access to a task management system where you can create, read, update, and complete tasks for the user.\n\n## Your Capabilities\n\nYou can help users with:\n- Creating new tasks when they mention things they need to do\n- Listing and reviewing their current tasks\n- Updating task details like titles, descriptions, or priorities\n- Marking tasks as completed when users finish them\n- Deleting tasks that are no longer needed\n- Organizing and prioritizing their workload\n\n## Personality and Communication Style\n\n- Be conversational, friendly, and concise\n- Acknowledge what you\x27re doing when you use tools\n- Confirm actions after completing them (e.g., \"I\x27ve added that task for you\")\n- Be proactive: if someone mentions needing to do something, offer to create a task for it\n- Use natural language when presenting task lists (don\x27t just dump JSON)\n- Ask for clarification when task details are ambiguous\n\n## Using Your Tools\n\nYou have access to the following tools:\n\n1. **add_task**: Create a new task\n   - Use this whenever the user mentions something they need to do\n   - Set appropriate priority levels based on urgency/importance cues\n   - Include helpful descriptions when context is provided\n\n2. **list_tasks**: View tasks\n   - Use this when users ask to see their tasks or check what needs to be done\n   - Filter by \"pending\" for active tasks, \"completed\" for finished tasks, or \"all\" for everything\n   - Present tasks in a readable format, grouped or sorted as appropriate\n\n3. **update_task**: Modify an existing task\n   - Use this when users want to change task details\n   - Confirm which task you\x27re updating if there\x27s any ambiguity\n\n4. **complete_task**: Mark a task as done\n   - Use this when users indicate they\x27ve finished something\n   - Celebrate their accomplishment!\n\n5. **delete_task**: Remove a task permanently\n   - Use this when users want to remove a task\n   - Confirm deletion for important tasks if needed\n\n## Guidelines\n\n### Proactive Task Creation\nIf a user says something like:\n- \"I need to call the dentist tomorrow\"\n- \"Remind me to review the proposal\"\n- \"I should probably update the documentation\"\n\nOffer to create a task for them or just create it directly if the intent is clear.\n\n### Smart Priority Assignment\n- **High**: Urgent deadlines, time-sensitive items, critical tasks\n- **Medium**: Regular tasks, standard priority (default)\n- **Low**: Nice-to-have items, when you get around to it tasks\n\n### Task Presentation\nWhen listing tasks, make them easy to scan:\n- Group by status (pending vs completed) if showing mixed results\n- Indicate priority with visual markers (🔴 high, 🟡 medium, 🟢 low) or brackets\n- Show the most relevant information (usually title and priority)\n- Keep descriptions brief unless specifically requested\n\n### Context Awareness\n- Remember what tasks were just discussed in the conversation\n- Use context to disambiguate (e.g., \"the documentation task\" instead of making user find the ID)\n- If there are multiple tasks matching a description, list them and ask which one\n\n### Error Handling\nIf a tool operation fails:\n- Explain what went wrong in simple terms\n- Suggest how to fix the issue\n- Don\x27t expose technical error details unless they\x27re helpful\n\n## Example Interactions\n\n**User:** \"I need to finish the quarterly report by Friday\"\n**You:** \"I\x27ll create a task for that with high priority since it has a deadline.\"\n[Use add_task with title: \"Finish quarterly report by Friday\", priority: \"high\"]\n**You:** \"Done! I\x27ve added \x27Finish quarterly report by Friday\x27 as a high priority task.\"\n\n**User:** \"What do I need to do today?\"\n**You:** \"Let me check your pending tasks.\"\n[Use list_tasks with filter: \"pending\"]\n**You:** \"Here\x27s what you have on your list:\n- 🔴 Finish quarterly report by Friday\n- 🟡 Call the dentist\n- 🟢 Update documentation\"\n\n**User:** \"I finished the report!\"\n**You:** \"Excellent work! Let me mark that as complete.\"\n[Use complete_task with the report task ID]\n**You:** \"Great! I\x27ve marked \x27Finish quarterly report by Friday\x27 as completed. That was a high priority item—nice job getting it done!\"\n\n**User:** \"Can you change the dentist task to high priority?\"\n**You:** \"Sure, I\x27ll update that for you.\"\n[Use update_task to change priority to \"high\"]\n**You:** \"Done! I\x27ve changed \x27Call the dentist\x27 to high priority.\"\n\n## Important Notes\n\n- Task IDs are UUIDs that users don\x27t need to see or remember—use task titles to refer to them\n- Always use tools to interact with tasks—never pretend to remember tasks from previous conversations unless they were discussed in this conversation\n- When users ask vague questions like \"what\x27s next?\", check their pending tasks and provide helpful suggestions\n- Be natural: you\x27re a helpful assistant, not a robotic task manager\n\nYour goal is to make task management effortless for the user. Be helpful, be clear, and be proactive!"

/-- Source constant `addTaskTool` (tools/definitions.ts); the `input_schema`
object is carried in its `JSON.stringify` serialization, which is the only
form the core consumes (`countToolTokens`). -/
def addTaskTool : Tool :=
  ⟨"add_task",
   some "Creates a new task and saves it to storage. Use this tool when the user wants to add a new task, create a todo item, or remember something they need to do. The task will be created with a pending status. You can optionally set a priority level (low, medium, or high) and add a description for more details.",
   "\x7b\"type\":\"object\",\"properties\":\x7b\"title\":\x7b\"type\":\"string\",\"description\":\"The title or name of the task. Should be clear and concise.\"\x7d,\"description\":\x7b\"type\":\"string\",\"description\":\"Optional detailed description of the task. Use this to provide additional context or notes.\"\x7d,\"priority\":\x7b\"type\":\"string\",\"enum\":[\"low\",\"medium\",\"high\"],\"description\":\"Optional priority level for the task. Defaults to medium if not specified.\"\x7d\x7d,\"required\":[\"title\"]\x7d"⟩

/-- Source constant `listTasksTool` (tools/definitions.ts); the `input_schema`
object is carried in its `JSON.stringify` serialization, which is the only
form the core consumes (`countToolTokens`). -/
def listTasksTool : Tool :=
  ⟨"list_tasks",
   some "Retrieves a list of tasks from storage, optionally filtered by status. Use this tool when the user wants to see their tasks, check what needs to be done, or review completed items. You can filter by \"pending\" to see only incomplete tasks, \"completed\" to see finished tasks, or \"all\" to see everything.",
   "\x7b\"type\":\"object\",\"properties\":\x7b\"filter\":\x7b\"type\":\"string\",\"enum\":[\"all\",\"pending\",\"completed\"],\"description\":\"Filter tasks by status. Use \\\"pending\\\" for incomplete tasks, \\\"completed\\\" for finished tasks, or \\\"all\\\" to see everything. Defaults to \\\"all\\\".\"\x7d\x7d,\"required\":[]\x7d"⟩

/-- Source constant `updateTaskTool` (tools/definitions.ts); the `input_schema`
object is carried in its `JSON.stringify` serialization, which is the only
form the core consumes (`countToolTokens`). -/
def updateTaskTool : Tool :=
  ⟨"update_task",
   some "Updates the properties of an existing task. Use this tool when the user wants to modify, change, or edit a task. You can update the title, description, and/or priority. To mark a task as complete, use the complete_task tool instead. You must provide the task ID along with the fields to update.",
   "\x7b\"type\":\"object\",\"properties\":\x7b\"id\":\x7b\"type\":\"string\",\"description\":\"The UUID of the task to update.\"\x7d,\"title\":\x7b\"type\":\"string\",\"description\":\"New title for the task.\"\x7d,\"description\":\x7b\"type\":\"string\",\"description\":\"New description for the task.\"\x7d,\"priority\":\x7b\"type\":\"string\",\"enum\":[\"low\",\"medium\",\"high\"],\"description\":\"New priority level for the task.\"\x7d\x7d,\"required\":[\"id\"]\x7d"⟩

/-- Source constant `completeTaskTool` (tools/definitions.ts); the `input_schema`
object is carried in its `JSON.stringify` serialization, which is the only
form the core consumes (`countToolTokens`). -/
def completeTaskTool : Tool :=
  ⟨"complete_task",
   some "Marks a task as completed and records the completion timestamp. Use this tool when the user indicates they have finished, completed, or done a task. The task status will be changed to \"completed\" and the completion time will be recorded. You must provide the task ID.",
   "\x7b\"type\":\"object\",\"properties\":\x7b\"id\":\x7b\"type\":\"string\",\"description\":\"The UUID of the task to mark as completed.\"\x7d\x7d,\"required\":[\"id\"]\x7d"⟩

/-- Source constant `deleteTaskTool` (tools/definitions.ts); the `input_schema`
object is carried in its `JSON.stringify` serialization, which is the only
form the core consumes (`countToolTokens`). -/
def deleteTaskTool : Tool :=
  ⟨"delete_task",
   some "Permanently deletes a task from storage. Use this tool when the user wants to remove or delete a task. This action cannot be undone. The task will be completely removed from the system. You must provide the task ID.",
   "\x7b\"type\":\"object\",\"properties\":\x7b\"id\":\x7b\"type\":\"string\",\"description\":\"The UUID of the task to delete.\"\x7d\x7d,\"required\":[\"id\"]\x7d"⟩

/-- Source constant `tools` (tools/definitions.ts): all available tools. -/
def tools : List Tool :=
  [addTaskTool, listTasksTool, updateTaskTool, completeTaskTool, deleteTaskTool]

deriving instance DecidableEq for Except

/-! ## Errors (`Result` failures of agent.ts / contextManager.ts) -/

/-- Failure values of the core.  The source represents every failure as a
plain `Error` whose message is built from one of a fixed set of templates;
each constructor keeps the data of one template (plus `generic` for error
objects that merely carry a message, e.g. store or provider failures), and
`AgentError.message` renders exactly the source string. -/
inductive AgentError where
  | generic (msg : String)
  | contextManagementFailed (inner : String)
  | contextOverflow (requestTokens : Nat) (hardTokenLimit : Nat)
  | iterationLimit (maxIterations : Nat)
  | insufficientHistory
deriving DecidableEq, Repr

/-- The `Error.message` string of each failure, as the source builds it. -/
def AgentError.message : AgentError → String
  | .generic msg => msg
  | .contextManagementFailed inner =>
      "Context management failed: " ++ inner ++
        ". Please start a new conversation or reduce message history."
  | .contextOverflow requestTokens hardTokenLimit =>
      "Context size (" ++ toString requestTokens ++
        " tokens) exceeds hard limit (" ++ toString hardTokenLimit ++
        " tokens). Consider starting a new conversation or enabling context summarization."
  | .iterationLimit maxIterations =>
      "Maximum iteration limit (" ++ toString maxIterations ++
        ") reached. The agent may be stuck in a tool loop."
  | .insufficientHistory => "Not enough messages to summarize"

/-! ## Tracing and configuration types (`src/types/index.ts`) -/

/-- Source type `ToolExecutionResult`: `{success, data?, error?}`.  The
`data` payload is opaque to the core and is modelled by its serialized
string form. -/
structure ToolExecutionResult where
  success : Bool
  data : Option String
  error : Option String
deriving DecidableEq, Repr

/-- Source type `ToolExecutionTrace` (types/index.ts). -/
structure ToolExecutionTrace where
  toolName : String
  startTime : String
  endTime : String
  durationMs : Nat
  input : String
  output : ToolExecutionResult
  success : Bool
deriving DecidableEq, Repr

/-- Source type `AgentIterationTrace` (types/index.ts). -/
structure AgentIterationTrace where
  iterationNumber : Nat
  inputTokens : Nat
  outputTokens : Nat
  totalTokens : Nat
  toolsExecuted : List ToolExecutionTrace
  stopReason : String
  timestamp : String
deriving DecidableEq, Repr

/-- Source type `AgentExecutionTrace` (types/index.ts). -/
structure AgentExecutionTrace where
  conversationId : String
  messageId : String
  userMessage : String
  assistantResponse : String
  startTime : String
  endTime : String
  durationMs : Nat
  totalInputTokens : Nat
  totalOutputTokens : Nat
  totalTokens : Nat
  totalCostUsd : ℚ
  iterations : List AgentIterationTrace
  model : String
deriving DecidableEq, Repr

/-- Source type `SafetyLimits` (types/index.ts). -/
structure SafetyLimits where
  maxIterations : Nat
  hardTokenLimit : Nat
  summarizationThreshold : Nat
  maxTokensPerRequest : Nat
deriving DecidableEq, Repr

/-- Source constant `DEFAULT_SAFETY_LIMITS` (agent.ts). -/
def DEFAULT_SAFETY_LIMITS : SafetyLimits :=
  ⟨10, CLAUDE_CONTEXT_LIMIT, SUMMARIZATION_THRESHOLD, MAX_TOKENS_PER_REQUEST⟩

/-- Source type `AgentConfig` (types/index.ts). -/
structure AgentConfig where
  apiKey : String
  model : String
  maxTokens : Option Nat
  maxConversationTokens : Option Nat
  safetyLimits : Option SafetyLimits
deriving DecidableEq, Repr

/-- Source type `AgentResponse` (types/index.ts); the `usage` counters are the
two token totals returned at step 9 of `processMessage`. -/
structure AgentResponse where
  response : String
  updatedConversation : Conversation
  usageInputTokens : Nat
  usageOutputTokens : Nat
  trace : AgentExecutionTrace
deriving DecidableEq, Repr

/-- A completion-provider response as consumed by the loop: the content
blocks, the usage counters, and the stop reason (`null` modelled as
`none`). -/
structure ApiResponse where
  content : List ContentBlock
  inputTokens : Nat
  outputTokens : Nat
  stopReason : Option String
deriving DecidableEq, Repr

/-! ## JavaScript helpers -/

/-- JavaScript `s || d` on an optional string: `null`, `undefined` and the
empty string are falsy and yield the default. -/
def jsStringOr (s : Option String) (d : String) : String :=
  match s with
  | some s => if s = "" then d else s
  | none => d

/-- JavaScript truthiness of an optional number: absent and `0` are falsy. -/
def jsTruthyNat (o : Option Nat) : Bool :=
  o.getD 0 ≠ 0

/-- JavaScript `arr.slice(0, -k)`: everything up to the last `k` elements,
except that `-0` is `0`, so `k = 0` yields the empty list. -/
def jsSliceDropLast (l : List MessageParam) (k : Nat) : List MessageParam :=
  if k = 0 then [] else l.take (l.length - k)

/-- JavaScript `arr.slice(-k)`: the last `k` elements, except that `-0` is
`0`, so `k = 0` yields the whole list. -/
def jsSliceLast (l : List MessageParam) (k : Nat) : List MessageParam :=
  if k = 0 then l else l.drop (l.length - k)

/-- The filter-by-text-type projection of a content-block list,
keeping the text of each text block. -/
def textBlocksOf (content : List ContentBlock) : List String :=
  content.filterMap fun b =>
    match b with
    | .text t => some t
    | _ => none

/-- The filter-by-tool-use-type projection of a content-block list. -/
def toolUseBlocksOf (content : List ContentBlock) : List ToolUseBlock :=
  content.filterMap fun b =>
    match b with
    | .toolUse id name input => some ⟨id, name, input⟩
    | _ => none

/-! ## External collaborators -/

/-- The collaborators `processMessage` interacts with, plus the abstracted
ambient values (wall clock, uuid).  `complete` is the loop completion call
(`client.messages.create`), indexed by the zero-based loop iteration;
`summaryComplete` is the separate completion call issued by
`summarizeOldMessages`, given the user prompt it sends and returning the
response content blocks.  A `.error` result of either models a thrown
exception, which the source catches and converts to a `Result` failure.  The
trace sink is not a field: its result is ignored by the source (a save failure
is only logged), and the traces handed to it are reported as instrumentation
by `processMessageT`. -/
structure Env where
  loadConversation : String → Except AgentError Conversation
  createNewConversation : Except AgentError Conversation
  complete : Nat → List MessageParam → Except AgentError ApiResponse
  summaryComplete : String → Except AgentError (List ContentBlock)
  toolRegistry : String → Option (String → Except String ToolExecutionResult)
  saveConversation : Conversation → Except AgentError Unit
  time : String
  uuid : String

/-! ## Context manager (`src/core/contextManager.ts`) -/

/-- Source `needsSummarization`: `(conversation.tokenCount || 0) >= threshold`. -/
def needsSummarization (conversation : Conversation) (threshold : Nat) : Bool :=
  conversation.tokenCount.getD 0 ≥ threshold

/-- The flattened transcript of the old messages built by
`summarizeOldMessages`: each string-content message, and each text block of a
block-content message, is rendered as a role-labelled line; other blocks are
skipped. -/
def conversationTextOf (oldMessages : List MessageParam) : String :=
  oldMessages.foldl
    (fun acc msg =>
      let role := if msg.role = Role.user then "User" else "Assistant"
      match msg.content with
      | .str s => acc ++ role ++ ": " ++ s ++ "\n\n"
      | .blocks bs =>
          bs.foldl
            (fun acc2 b =>
              match b with
              | .text t => acc2 ++ role ++ ": " ++ t ++ "\n\n"
              | _ => acc2)
            acc)
    ""

/-- The user prompt `summarizeOldMessages` sends to the provider. -/
def summaryPrompt (conversationText : String) : String :=
  "Please provide a concise summary of the following conversation. " ++
    "Focus on key topics discussed, decisions made, and important context. " ++
    "Keep it brief but comprehensive.\n\n" ++ conversationText

/-- The synthetic user-role summary message built from the provider response
content: the text blocks joined with a newline, wrapped in the explicit
compressed-context marker. -/
def mkSummaryMessage (content : List ContentBlock) : MessageParam :=
  ⟨Role.user,
   MessageContent.str
     ("[Previous conversation summary: " ++
       String.intercalate "\n" (textBlocksOf content) ++ "]")⟩

/-- Source `summarizeOldMessages` (contextManager.ts).  The `apiKey` and
`model` arguments only configure the provider client and are absorbed into
`env.summaryComplete`. -/
def summarizeOldMessages (env : Env) (messages : List MessageParam)
    (keepRecentCount : Nat) :
    Except AgentError (List MessageParam × SummaryMetadata) :=
  if messages.length ≤ keepRecentCount then
    .error .insufficientHistory
  else
    let oldMessages := jsSliceDropLast messages keepRecentCount
    let recentMessages := jsSliceLast messages keepRecentCount
    let tokenCountBefore := countMessageTokens messages
    let conversationText := conversationTextOf oldMessages
    match env.summaryComplete (summaryPrompt conversationText) with
    | .error e => .error e
    | .ok responseContent =>
        let summaryMessage := mkSummaryMessage responseContent
        let summarizedMessages := summaryMessage :: recentMessages
        let tokenCountAfter := countMessageTokens summarizedMessages
        .ok (summarizedMessages,
          ⟨env.time, messages.length, keepRecentCount, tokenCountBefore,
            tokenCountAfter⟩)

/-- Configuration record passed to `applyContextManagement` by
`processMessage`. -/
structure ContextConfig where
  threshold : Nat
  keepRecentCount : Nat
  apiKey : String
  model : String
deriving DecidableEq, Repr

/-- Source `applyContextManagement` (contextManager.ts): a no-op below the
threshold; otherwise summarizes and rebuilds the conversation, appending the
new metadata to the (possibly absent) summary history. -/
def applyContextManagement (env : Env) (conversation : Conversation)
    (config : ContextConfig) : Except AgentError Conversation :=
  if ¬ needsSummarization conversation config.threshold then
    .ok conversation
  else
    match summarizeOldMessages env conversation.messages
        config.keepRecentCount with
    | .error e => .error e
    | .ok (summarizedMessages, metadata) =>
        .ok { conversation with
              messages := summarizedMessages,
              tokenCount := some metadata.tokenCountAfter,
              summaries := some (conversation.summaries.getD [] ++ [metadata]) }

/-! ## Cost (`MODEL_PRICING`, `calculateCost` in agent.ts) -/

/-- Source constant `MODEL_PRICING` (agent.ts): per-model `{input, output}`
prices per 1M tokens; lookup by model identifier. -/
def MODEL_PRICING (model : String) : Option (ℚ × ℚ) :=
  if model = "claude-3-5-haiku-20241022" then some (1, 5)
  else if model = "claude-3-5-sonnet-20241022" then some (3, 15)
  else none

/-- Source `calculateCost` (agent.ts): 0 for an unknown model, otherwise
`inputTokens/1e6 * input + outputTokens/1e6 * output`. -/
def calculateCost (inputTokens outputTokens : Nat) (model : String) : ℚ :=
  match MODEL_PRICING model with
  | none => 0
  | some pricing =>
      (inputTokens : ℚ) / 1000000 * pricing.1 +
        (outputTokens : ℚ) / 1000000 * pricing.2

/-! ## Tool dispatch (`executeToolCall` in agent.ts) -/

/-- Source `executeToolCall` (agent.ts): looks the tool name up in the
registry; an unknown name yields a failure trace with an `Unknown tool`
error; a handler result is recorded as-is; a thrown handler exception
(`Except.error` of the handler) is caught and recorded as a failure trace
carrying the exception message.  The function is total: it always returns a
`ToolExecutionTrace` and never fails. -/
def executeToolCall (env : Env) (toolUse : ToolUseBlock) : ToolExecutionTrace :=
  match env.toolRegistry toolUse.name with
  | none =>
      { toolName := toolUse.name
        startTime := env.time
        endTime := env.time
        durationMs := 0
        input := toolUse.input
        output := ⟨false, none, some ("Unknown tool: " ++ toolUse.name)⟩
        success := false }
  | some handler =>
      match handler toolUse.input with
      | .ok result =>
          { toolName := toolUse.name
            startTime := env.time
            endTime := env.time
            durationMs := 0
            input := toolUse.input
            output := result
            success := result.success }
      | .error msg =>
          { toolName := toolUse.name
            startTime := env.time
            endTime := env.time
            durationMs := 0
            input := toolUse.input
            output := ⟨false, none, some msg⟩
            success := false }

/-- The `content` of the synthetic tool-result message: the serialized
success payload (`JSON.stringify(trace.output.data)`, with an absent payload
rendering as `undefined`), or `Error: <message>` on failure. -/
def toolResultContent (trace : ToolExecutionTrace) : String :=
  if trace.success then trace.output.data.getD "undefined"
  else "Error: " ++ trace.output.error.getD "undefined"

/-- The sequential tool-dispatch loop of agent.ts step 4d: executes each
requested tool in provider order, appending per call a synthetic user message
holding one `tool_result` block correlated by the call id, and collects the
`ToolExecutionTrace`s in order. -/
def runToolCalls (env : Env) (msgs : List MessageParam) :
    List ToolUseBlock → List MessageParam × List ToolExecutionTrace
  | [] => (msgs, [])
  | toolUse :: rest =>
      let trace := executeToolCall env toolUse
      let msgs' := msgs ++
        [⟨Role.user,
          MessageContent.blocks
            [ContentBlock.toolResult toolUse.id (some (toolResultContent trace))]⟩]
      let result := runToolCalls env msgs' rest
      (result.1, trace :: result.2)

/-! ## The agent loop (`processMessage` in agent.ts) -/

/-- The mutable locals of agent.ts step 4 (`currentMessages`, `iterations`,
`assistantResponse`, `totalInputTokens`, `totalOutputTokens`), plus
`providerCalls`, an instrumentation counter incremented exactly where the
source invokes `client.messages.create`. -/
structure LoopState where
  currentMessages : List MessageParam
  iterations : List AgentIterationTrace
  assistantResponse : String
  totalInputTokens : Nat
  totalOutputTokens : Nat
  providerCalls : Nat
deriving DecidableEq, Repr

/-- The tool-dispatch part of one loop round (agent.ts step 4d): when the
response requested tools, the raw assistant response is appended and the
tools are executed sequentially; otherwise the messages are left alone and no
tool traces are produced. -/
def dispatchedOf (env : Env) (st : LoopState) (resp : ApiResponse) :
    List MessageParam × List ToolExecutionTrace :=
  let toolUses := toolUseBlocksOf resp.content
  if toolUses.isEmpty then (st.currentMessages, [])
  else
    runToolCalls env
      (st.currentMessages ++ [⟨Role.assistant, MessageContent.blocks resp.content⟩])
      toolUses

/-- The iteration trace pushed by one loop round (agent.ts step 4,
`iterations.push`). -/
def iterationOf (env : Env) (st : LoopState) (i : Nat) (resp : ApiResponse) :
    AgentIterationTrace :=
  { iterationNumber := i + 1
    inputTokens := resp.inputTokens
    outputTokens := resp.outputTokens
    totalTokens := resp.inputTokens + resp.outputTokens
    toolsExecuted := (dispatchedOf env st resp).2
    stopReason := jsStringOr resp.stopReason "unknown"
    timestamp := env.time }

/-- One round of the loop body after a successful provider call: extracts
text and `tool_use` blocks, accumulates the assistant text, dispatches the
requested tools (appending the raw assistant response first), pushes the
iteration trace, and adds the usage counters; the loop then inspects the
response to decide between break, iteration-limit failure, and the next
round. -/
def loopRound (env : Env) (st : LoopState) (i : Nat) (resp : ApiResponse) :
    LoopState :=
  { currentMessages := (dispatchedOf env st resp).1
    iterations := st.iterations ++ [iterationOf env st i resp]
    assistantResponse :=
      st.assistantResponse ++ String.join (textBlocksOf resp.content)
    totalInputTokens := st.totalInputTokens + resp.inputTokens
    totalOutputTokens := st.totalOutputTokens + resp.outputTokens
    providerCalls := st.providerCalls + 1 }

/-- Source agent.ts step 4, the bounded agentic loop
(`for (let i = 0; i < safetyLimits.maxIterations; i++)`).  Per iteration:
the pre-flight token check (`ContextOverflow` failure before any provider
call), the provider call (a thrown provider error propagates), the loop
round, then: break with the final assistant message appended when no tools
were requested, the `IterationLimitExceeded` failure when the last allowed
iteration still requested tools, or the next iteration.  A failure carries
the loop state at the failure point (instrumentation: the source has already
performed the corresponding side effects when it returns the error). -/
def agentLoopAux (env : Env) (limits : SafetyLimits) :
    Nat → Nat → LoopState → Except (AgentError × LoopState) LoopState
  | 0, _, st => .ok st
  | fuel + 1, i, st =>
      let iterationNumber := i + 1
      let requestTokens := getTotalRequestTokens systemPrompt st.currentMessages tools
      if requestTokens > limits.hardTokenLimit then
        .error (.contextOverflow requestTokens limits.hardTokenLimit, st)
      else
        match env.complete i st.currentMessages with
        | .error e => .error (e, { st with providerCalls := st.providerCalls + 1 })
        | .ok resp =>
            let st' := loopRound env st i resp
            if (toolUseBlocksOf resp.content).isEmpty then
              .ok { st' with
                    currentMessages := st'.currentMessages ++
                      [⟨Role.assistant, MessageContent.blocks resp.content⟩] }
            else if iterationNumber = limits.maxIterations then
              .error (.iterationLimit limits.maxIterations, st')
            else
              agentLoopAux env limits fuel (i + 1) st'

/-- The loop entered at index `i`: the remaining-iteration count
`maxIterations - i` is the structural recursion handle of `agentLoopAux`,
which is zero exactly when the `for` condition `i < maxIterations` fails, and
every recursive call maintains it, so this is exactly the source loop. -/
def agentLoop (env : Env) (limits : SafetyLimits) (i : Nat) (st : LoopState) :
    Except (AgentError × LoopState) LoopState :=
  agentLoopAux env limits (limits.maxIterations - i) i st

/-- The provider-call count observable from a loop outcome. -/
def loopCalls : Except (AgentError × LoopState) LoopState → Nat
  | .ok st => st.providerCalls
  | .error (_, st) => st.providerCalls

/-- Steps 1–2 of `processMessage`: load the conversation by id or create a
fresh one, then apply context management when `config.maxConversationTokens`
is truthy, wrapping a context-management failure in the descriptive
`ContextManagementFailed` error. -/
def setupConversation (env : Env) (config : AgentConfig)
    (safetyLimits : SafetyLimits) (conversationId : Option String) :
    Except AgentError Conversation :=
  let loaded :=
    match conversationId with
    | some id => env.loadConversation id
    | none => env.createNewConversation
  match loaded with
  | .error e => .error e
  | .ok conversation =>
      if jsTruthyNat config.maxConversationTokens then
        match applyContextManagement env conversation
            ⟨safetyLimits.summarizationThreshold, 20, config.apiKey,
              config.model⟩ with
        | .error e => .error (.contextManagementFailed e.message)
        | .ok c => .ok c
      else
        .ok conversation

/-- The execution trace built at agent.ts step 5 from the final loop state. -/
def traceOf (env : Env) (config : AgentConfig) (conversation : Conversation)
    (userMessage : String) (st : LoopState) : AgentExecutionTrace :=
  { conversationId := conversation.id
    messageId := env.uuid
    userMessage := userMessage
    assistantResponse := st.assistantResponse
    startTime := env.time
    endTime := env.time
    durationMs := 0
    totalInputTokens := st.totalInputTokens
    totalOutputTokens := st.totalOutputTokens
    totalTokens := st.totalInputTokens + st.totalOutputTokens
    totalCostUsd :=
      calculateCost st.totalInputTokens st.totalOutputTokens config.model
    iterations := st.iterations
    model := config.model }

/-- The conversation rebuilt at agent.ts step 6: fresh last-activity stamp,
the final message list of the loop, and the token count recomputed by the full
request estimate over those messages. -/
def updatedConversationOf (env : Env) (conversation : Conversation)
    (st : LoopState) : Conversation :=
  { conversation with
    lastMessageAt := env.time
    messages := st.currentMessages
    tokenCount :=
      some (getTotalRequestTokens systemPrompt st.currentMessages tools) }

/-- Source `processMessage` (agent.ts), instrumented: the second component is
the list of execution traces handed to the trace sink (`saveTrace`), whose
own result the source ignores apart from a console warning.  Steps: setup
(load/create + context management), append the user message, run the agent
loop, build the execution trace, rebuild and save the conversation, persist
the trace, and return the response. -/
def processMessageT (env : Env) (config : AgentConfig) (userMessage : String)
    (conversationId : Option String) :
    Except AgentError AgentResponse × List AgentExecutionTrace :=
  let safetyLimits := config.safetyLimits.getD DEFAULT_SAFETY_LIMITS
  match setupConversation env config safetyLimits conversationId with
  | .error e => (.error e, [])
  | .ok conversation =>
      let updatedMessages :=
        conversation.messages ++ [⟨Role.user, MessageContent.str userMessage⟩]
      match agentLoop env safetyLimits 0 ⟨updatedMessages, [], "", 0, 0, 0⟩ with
      | .error (e, _) => (.error e, [])
      | .ok st =>
          let trace := traceOf env config conversation userMessage st
          let updatedConversation := updatedConversationOf env conversation st
          match env.saveConversation updatedConversation with
          | .error e => (.error e, [])
          | .ok _ =>
              (.ok { response := st.assistantResponse
                     updatedConversation := updatedConversation
                     usageInputTokens := st.totalInputTokens
                     usageOutputTokens := st.totalOutputTokens
                     trace := trace },
               [trace])

/-- Source `processMessage` (agent.ts): the returned `Result<AgentResponse>`. -/
def processMessage (env : Env) (config : AgentConfig) (userMessage : String)
    (conversationId : Option String) : Except AgentError AgentResponse :=
  (processMessageT env config userMessage conversationId).1

/-- The per-message estimate as the specification words it: a fixed
per-message overhead constant, plus the estimate of the role label, plus the
content contribution — the estimate of the string for a string-content
message, and the sum of the per-block contributions otherwise. -/
def messageTokenEstimate (m : MessageParam) : Nat :=
  4 + countTokens m.role.toStr +
    (match m.content with
     | .str s => countTokens s
     | .blocks bs => (bs.map countBlockTokens).sum)

/-- A stub environment for concrete instances: the summarization provider
always answers with the single text block `s`; everything else is inert. -/
def envStub : Env :=
  { loadConversation := fun _ => .error (.generic "not found")
    createNewConversation := .error (.generic "not found")
    complete := fun _ _ => .error (.generic "provider failure")
    summaryComplete := fun _ => .ok [.text "s"]
    toolRegistry := fun _ => none
    saveConversation := fun _ => .ok ()
    time := "T"
    uuid := "U" }

/-- A 30-message history of alternating trivial user messages. -/
def messages30 : List MessageParam :=
  List.replicate 30 ⟨Role.user, MessageContent.str "m"⟩

/-- The fresh, empty conversation that the store creates for a turn without a
conversation id. -/
def emptyConversation : Conversation := ⟨"c1", "t0", "t0", [], some 0, none⟩

/-- A provider response with a single text block and no tool requests. -/
def respText : ApiResponse := ⟨[.text "hello"], 10, 5, some "end_turn"⟩

/-- A provider response requesting one tool invocation of an unregistered
tool. -/
def respTools : ApiResponse :=
  ⟨[.toolUse "call-1" "missing_tool" "arg"], 10, 5, some "tool_use"⟩

/-- A concrete environment whose provider always answers with plain text. -/
def envText : Env :=
  { loadConversation := fun _ => .error (.generic "not found")
    createNewConversation := .ok emptyConversation
    complete := fun _ _ => .ok respText
    summaryComplete := fun _ => .ok [.text "s"]
    toolRegistry := fun _ => none
    saveConversation := fun _ => .ok ()
    time := "T"
    uuid := "U" }

/-- A concrete environment whose provider always requests one tool call (of a
tool missing from the registry). -/
def envTools : Env :=
  { envText with complete := fun _ _ => .ok respTools }

/-- A concrete environment with one registered tool, `boom`, whose handler
always throws. -/
def envThrow : Env :=
  { envText with
    toolRegistry := fun name =>
      if name = "boom" then some (fun _ => .error "kaboom") else none }

/-- A configuration with `maxIterations = 1` and otherwise default limits;
context management disabled. -/
def configTools : AgentConfig :=
  ⟨"key", "model-x", none, none, some ⟨1, 200000, 150000, 4096⟩⟩

/-- A configuration whose hard token limit is 0, so every pre-flight check
overflows. -/
def configOverflow : AgentConfig :=
  ⟨"key", "model-x", none, none, some ⟨1, 0, 150000, 4096⟩⟩

/-- The `AgentResponse` of the plain-text run
`processMessageT envText configTools "hi" none`, spelled out. -/
def successResponse : AgentResponse :=
  { response := "hello"
    updatedConversation := ⟨"c1", "t0", "T",
      [⟨Role.user, MessageContent.str "hi"⟩,
       ⟨Role.assistant, MessageContent.blocks [.text "hello"]⟩],
      some 2003, none⟩
    usageInputTokens := 10
    usageOutputTokens := 5
    trace := ⟨"c1", "U", "hi", "hello", "T", "T", 0, 10, 5, 15, 0,
      [⟨1, 10, 5, 15, [], "end_turn", "T"⟩], "model-x"⟩ }

set_option maxRecDepth 20000

/-! ## Theorems -/

theorem encodeChunks_length (cs : List Char) :
    (encodeChunks cs).length = (cs.length + 3) / 4 := by
  induction cs using encodeChunks.induct with
  | case1 => simp [encodeChunks]
  | case2 a => simp [encodeChunks]
  | case3 a b => simp [encodeChunks]
  | case4 a b c => simp [encodeChunks]
  | case5 a b c d rest ih =>
    rw [encodeChunks]
    simp only [List.length_cons] at ih ⊢
    omega

theorem countTokens_eq (s : String) :
    countTokens s = (s.data.length + 3) / 4 := by
  by_cases h : s = ""
  · subst h; simp [countTokens]
  · rw [countTokens, if_neg h, encodeChunks_length]

/-- C5: the text token estimator returns 0 on the empty string, is
non-negative on every string (its codomain is `Nat`), and is monotone under
appending any suffix — in particular any single character. -/
theorem countTokens_zero_nonneg_monotone :
    countTokens "" = 0 ∧ (∀ s : String, 0 ≤ countTokens s) ∧
      ∀ s t : String, countTokens s ≤ countTokens (s ++ t) := by
  refine ⟨rfl, fun s => Nat.zero_le _, fun s t => ?_⟩
  rw [countTokens_eq, countTokens_eq]
  cases s with
  | mk sd =>
    cases t with
    | mk td =>
      show (sd.length + 3) / 4 ≤ ((sd ++ td).length + 3) / 4
      rw [List.length_append]
      exact Nat.div_le_div_right (by omega)

theorem foldl_add_countBlockTokens (bs : List ContentBlock) (a : Nat) :
    bs.foldl (fun t block => t + countBlockTokens block) a =
      a + (bs.map countBlockTokens).sum := by
  induction bs generalizing a with
  | nil => simp
  | cons b bs ih => simp [ih, Nat.add_assoc]

theorem msgFoldStep_eq (a : Nat) (m : MessageParam) :
    msgFoldStep a m = a + messageTokenEstimate m := by
  rw [msgFoldStep, messageTokenEstimate]
  cases m.content with
  | str s => simp only; omega
  | blocks bs =>
    simp only [foldl_add_countBlockTokens]
    omega

theorem foldl_msgFoldStep (msgs : List MessageParam) (a : Nat) :
    msgs.foldl msgFoldStep a = a + (msgs.map messageTokenEstimate).sum := by
  induction msgs generalizing a with
  | nil => simp
  | cons m ms ih =>
    rw [List.foldl_cons, msgFoldStep_eq, List.map_cons, List.sum_cons, ih,
      Nat.add_assoc]

/-- C9: the message token estimate is the sum, over the messages, of the
fixed per-message overhead plus the role-label estimate plus the estimate of
every content block — a tool-result block contributing its call identifier
plus its string result content, a string-content message contributing the
estimate of that string. -/
theorem countMessageTokens_eq_sum (messages : List MessageParam) :
    countMessageTokens messages =
      (messages.map messageTokenEstimate).sum := by
  rw [countMessageTokens, foldl_msgFoldStep, Nat.zero_add]

/-- C6: the cost function is the pricing-table formula for known models, is
exactly 0 for every unrecognized model identifier regardless of token counts,
and is additive across iterations: for a known model the cost of the summed
token counts equals the sum of the per-iteration costs. -/
theorem calculateCost_formula_zero_additive :
    (∀ model pricing, MODEL_PRICING model = some pricing →
      ∀ inputTokens outputTokens : Nat,
        calculateCost inputTokens outputTokens model =
          (inputTokens : ℚ) / 1000000 * pricing.1 +
            (outputTokens : ℚ) / 1000000 * pricing.2) ∧
    (∀ model, MODEL_PRICING model = none →
      ∀ inputTokens outputTokens : Nat,
        calculateCost inputTokens outputTokens model = 0) ∧
    (∀ model, (MODEL_PRICING model).isSome →
      ∀ runs : List (Nat × Nat),
        calculateCost ((runs.map Prod.fst).sum) ((runs.map Prod.snd).sum) model =
          (runs.map fun r => calculateCost r.1 r.2 model).sum) := by
  refine ⟨fun model pricing h i o => by rw [calculateCost, h],
          fun model h i o => by rw [calculateCost, h],
          fun model h runs => ?_⟩
  obtain ⟨pricing, hp⟩ := Option.isSome_iff_exists.mp h
  have key : ∀ a b c d : Nat,
      calculateCost (a + c) (b + d) model =
        calculateCost a b model + calculateCost c d model := by
    intro a b c d
    simp only [calculateCost, hp]
    push_cast
    ring
  induction runs with
  | nil => simp [calculateCost, hp]
  | cons r rs ih =>
    simp only [List.map_cons, List.sum_cons]
    rw [key, ih]

/-- Witness for C6 on concrete inputs: the formula at the haiku pricing row,
zero cost for an unknown model, and additivity over the two-iteration run
`[(1, 3), (2, 4)]` of the sonnet model. -/
theorem calculateCost_witness :
    calculateCost 2000000 3000000 "claude-3-5-haiku-20241022" =
        (2000000 : ℚ) / 1000000 * 1 + (3000000 : ℚ) / 1000000 * 5 ∧
      calculateCost 123 456 "gpt-4o" = 0 ∧
      calculateCost (1 + 2) (3 + 4) "claude-3-5-sonnet-20241022" =
        calculateCost 1 3 "claude-3-5-sonnet-20241022" +
          calculateCost 2 4 "claude-3-5-sonnet-20241022" := by
  refine ⟨calculateCost_formula_zero_additive.1 _ (1, 5) (by rfl) 2000000 3000000,
          calculateCost_formula_zero_additive.2.1 "gpt-4o" (by rfl) 123 456,
          ?_⟩
  have h := calculateCost_formula_zero_additive.2.2 "claude-3-5-sonnet-20241022"
    (by rfl) [(1, 3), (2, 4)]
  simpa using h

/-- C3 counterexample: at `keepRecentCount = 0` and a one-message history the
guard does not fire (`1 > 0`), but JavaScript `slice(0, -0)` selects nothing
and `slice(-0)` the whole list, so the whole history is kept verbatim and the
summary of an empty transcript is prepended: the result has 2 messages, not
`keepRecentCount + 1 = 1`, and `recent` is not `messages[length-0 ..] = []`. -/
theorem summarizeOldMessages_keepZero_counterexample :
    summarizeOldMessages envStub [⟨Role.user, MessageContent.str "hi"⟩] 0 =
      .ok ([⟨Role.user, MessageContent.str "[Previous conversation summary: s]"⟩,
            ⟨Role.user, MessageContent.str "hi"⟩],
           ⟨"T", 1, 0, 6, 20⟩) ∧
      (2 : Nat) ≠ 0 + 1 := by
  exact ⟨by decide, by decide⟩

/-- C3 (amended): `summarizeOldMessages` fails with `InsufficientHistory`
exactly when `messages.length <= keepRecentCount` (given that the provider
never throws that same error value); and — provided `keepRecentCount ≥ 1` —
it splits the list into `old = messages[0 .. length-keep)` and
`recent = messages[length-keep ..]`, and on provider success returns the
synthetic user-role summary message prepended to `recent`, of length
`keepRecentCount + 1`, with metadata recording the counts. -/
theorem summarizeOldMessages_eq (env : Env) (messages : List MessageParam)
    (keepRecentCount : Nat) (hle : ¬ messages.length ≤ keepRecentCount) :
    summarizeOldMessages env messages keepRecentCount =
      match env.summaryComplete (summaryPrompt (conversationTextOf
          (jsSliceDropLast messages keepRecentCount))) with
      | .error e => .error e
      | .ok responseContent =>
          .ok (mkSummaryMessage responseContent ::
                jsSliceLast messages keepRecentCount,
               ⟨env.time, messages.length, keepRecentCount,
                 countMessageTokens messages,
                 countMessageTokens (mkSummaryMessage responseContent ::
                   jsSliceLast messages keepRecentCount)⟩) := by
  rw [summarizeOldMessages, if_neg hle]

theorem summarizeOldMessages_spec (env : Env) (messages : List MessageParam)
    (keepRecentCount : Nat)
    (hp : ∀ p, env.summaryComplete p ≠ .error .insufficientHistory) :
    (summarizeOldMessages env messages keepRecentCount =
        .error .insufficientHistory ↔ messages.length ≤ keepRecentCount) ∧
    (1 ≤ keepRecentCount → keepRecentCount < messages.length →
      ∀ responseContent,
        env.summaryComplete (summaryPrompt (conversationTextOf
            (messages.take (messages.length - keepRecentCount)))) =
          .ok responseContent →
        summarizeOldMessages env messages keepRecentCount =
          .ok (mkSummaryMessage responseContent ::
                messages.drop (messages.length - keepRecentCount),
               ⟨env.time, messages.length, keepRecentCount,
                 countMessageTokens messages,
                 countMessageTokens (mkSummaryMessage responseContent ::
                   messages.drop (messages.length - keepRecentCount))⟩) ∧
        (mkSummaryMessage responseContent ::
            messages.drop (messages.length - keepRecentCount)).length =
          keepRecentCount + 1) := by
  constructor
  · by_cases hle : messages.length ≤ keepRecentCount
    · simp [summarizeOldMessages, hle]
    · rw [summarizeOldMessages_eq env messages keepRecentCount hle]
      cases hc : env.summaryComplete (summaryPrompt (conversationTextOf
          (jsSliceDropLast messages keepRecentCount))) with
      | error e =>
        have hne := hp (summaryPrompt (conversationTextOf
          (jsSliceDropLast messages keepRecentCount)))
        rw [hc] at hne
        simp only
        constructor
        · intro h
          injection h with h2
          exact absurd (by rw [h2] at hne; exact hne rfl) not_false
        · intro h; exact absurd h hle
      | ok responseContent =>
        simp only
        constructor
        · intro h; exact Except.noConfusion h
        · intro h; exact absurd h hle
  · intro h1 hlt responseContent hc
    have hle : ¬ messages.length ≤ keepRecentCount := by omega
    have hk : keepRecentCount ≠ 0 := by omega
    rw [summarizeOldMessages_eq env messages keepRecentCount hle]
    simp only [jsSliceDropLast, jsSliceLast, if_neg hk]
    rw [hc]
    refine ⟨rfl, ?_⟩
    simp only [List.length_cons, List.length_drop]
    omega

/-- Witness for C3 (amended) at the 30-message, `keepRecentCount = 20`
instance of the claim: exactly the first 10 messages are folded into the
summary and the last 20 are kept verbatim, giving 21 messages. -/
theorem summarizeOldMessages_spec_witness :
    summarizeOldMessages envStub messages30 20 =
      .ok (mkSummaryMessage [.text "s"] :: messages30.drop 10,
           ⟨"T", 30, 20, countMessageTokens messages30,
             countMessageTokens
               (mkSummaryMessage [.text "s"] :: messages30.drop 10)⟩) ∧
      (mkSummaryMessage [.text "s"] :: messages30.drop 10).length = 20 + 1 := by
  have h := (summarizeOldMessages_spec envStub messages30 20
      (fun p => by simp [envStub])).2 (by decide) (by decide)
      [.text "s"] (by rfl)
  simpa [envStub, messages30] using h

/-- C4: `applyContextManagement` is driven by the pure predicate
`needsSummarization` (`tokenCount >= threshold`, an absent count reading as
0): below the threshold it returns the input conversation unchanged; at or
above it, a `summarizeOldMessages` failure is propagated verbatim (and no
updated conversation is produced), while success rebuilds the conversation
with the summarized messages, the post-compression token count, and the new
metadata appended to the (possibly absent) summary history, all other fields
unchanged. -/
theorem applyContextManagement_spec (env : Env) (conversation : Conversation)
    (config : ContextConfig) :
    (needsSummarization conversation config.threshold = true ↔
       config.threshold ≤ conversation.tokenCount.getD 0) ∧
    (conversation.tokenCount.getD 0 < config.threshold →
       applyContextManagement env conversation config = .ok conversation) ∧
    (config.threshold ≤ conversation.tokenCount.getD 0 →
       (∀ e, summarizeOldMessages env conversation.messages
            config.keepRecentCount = .error e →
          applyContextManagement env conversation config = .error e) ∧
       (∀ summarizedMessages metadata,
          summarizeOldMessages env conversation.messages
              config.keepRecentCount = .ok (summarizedMessages, metadata) →
          applyContextManagement env conversation config =
            .ok { conversation with
                  messages := summarizedMessages,
                  tokenCount := some metadata.tokenCountAfter,
                  summaries := some (conversation.summaries.getD [] ++
                    [metadata]) })) := by
  refine ⟨by simp [needsSummarization], fun hlt => ?_, fun hge => ⟨?_, ?_⟩⟩
  · rw [applyContextManagement, if_pos]
    simp [needsSummarization]
    omega
  · intro e he
    rw [applyContextManagement, if_neg, he]
    simp [needsSummarization]
    omega
  · intro summarizedMessages metadata hs
    rw [applyContextManagement, if_neg, hs]
    simp [needsSummarization]
    omega

/-- Witness for C4 on concrete conversations: a below-threshold conversation
is returned unchanged; an above-threshold two-message conversation is
summarized down to the summary plus the last message with the new metadata
appended; an above-threshold conversation with too little history propagates
the `InsufficientHistory` failure verbatim. -/
theorem applyContextManagement_spec_witness :
    applyContextManagement envStub
        ⟨"a", "t", "t", messages30, some 100000, none⟩ ⟨150000, 20, "k", "m"⟩ =
      .ok ⟨"a", "t", "t", messages30, some 100000, none⟩ ∧
    applyContextManagement envStub
        ⟨"b", "t", "t", [⟨Role.user, MessageContent.str "old"⟩,
          ⟨Role.user, MessageContent.str "new"⟩], some 160000, none⟩
        ⟨150000, 1, "k", "m"⟩ =
      .ok ⟨"b", "t", "t",
        [⟨Role.user, MessageContent.str "[Previous conversation summary: s]"⟩,
         ⟨Role.user, MessageContent.str "new"⟩],
        some 20, some [⟨"T", 2, 1, 12, 20⟩]⟩ ∧
    applyContextManagement envStub
        ⟨"c", "t", "t", [⟨Role.user, MessageContent.str "only"⟩], some 160000,
          none⟩ ⟨150000, 20, "k", "m"⟩ =
      .error .insufficientHistory := by
  refine ⟨(applyContextManagement_spec envStub _ _).2.1 (by decide), ?_, ?_⟩
  · have h := ((applyContextManagement_spec envStub
        ⟨"b", "t", "t", [⟨Role.user, MessageContent.str "old"⟩,
          ⟨Role.user, MessageContent.str "new"⟩], some 160000, none⟩
        ⟨150000, 1, "k", "m"⟩).2.2 (by decide)).2
        [⟨Role.user, MessageContent.str "[Previous conversation summary: s]"⟩,
         ⟨Role.user, MessageContent.str "new"⟩]
        ⟨"T", 2, 1, 12, 20⟩ (by decide)
    simpa using h
  · exact ((applyContextManagement_spec envStub _ _).2.2 (by decide)).1 _
      (by decide)

/-! ### Agent-loop step lemmas -/

theorem agentLoopAux_zero (env : Env) (limits : SafetyLimits) (i : Nat)
    (st : LoopState) : agentLoopAux env limits 0 i st = .ok st := rfl

theorem agentLoopAux_succ_overflow (env : Env) (limits : SafetyLimits)
    (fuel i : Nat) (st : LoopState)
    (hov : getTotalRequestTokens systemPrompt st.currentMessages tools >
      limits.hardTokenLimit) :
    agentLoopAux env limits (fuel + 1) i st =
      .error (.contextOverflow
        (getTotalRequestTokens systemPrompt st.currentMessages tools)
        limits.hardTokenLimit, st) := by
  simp [agentLoopAux, hov]

theorem agentLoopAux_succ_providerError (env : Env) (limits : SafetyLimits)
    (fuel i : Nat) (st : LoopState) (e : AgentError)
    (hov : ¬ getTotalRequestTokens systemPrompt st.currentMessages tools >
      limits.hardTokenLimit)
    (hc : env.complete i st.currentMessages = .error e) :
    agentLoopAux env limits (fuel + 1) i st =
      .error (e, { st with providerCalls := st.providerCalls + 1 }) := by
  simp [agentLoopAux, hov, hc]

theorem agentLoopAux_succ_break (env : Env) (limits : SafetyLimits)
    (fuel i : Nat) (st : LoopState) (resp : ApiResponse)
    (hov : ¬ getTotalRequestTokens systemPrompt st.currentMessages tools >
      limits.hardTokenLimit)
    (hc : env.complete i st.currentMessages = .ok resp)
    (hemp : (toolUseBlocksOf resp.content).isEmpty = true) :
    agentLoopAux env limits (fuel + 1) i st =
      .ok { loopRound env st i resp with
            currentMessages := (loopRound env st i resp).currentMessages ++
              [⟨Role.assistant, MessageContent.blocks resp.content⟩] } := by
  simp [agentLoopAux, hov, hc, hemp, loopRound, dispatchedOf, iterationOf]

theorem agentLoopAux_succ_limit (env : Env) (limits : SafetyLimits)
    (fuel i : Nat) (st : LoopState) (resp : ApiResponse)
    (hov : ¬ getTotalRequestTokens systemPrompt st.currentMessages tools >
      limits.hardTokenLimit)
    (hc : env.complete i st.currentMessages = .ok resp)
    (hemp : (toolUseBlocksOf resp.content).isEmpty = false)
    (hmax : i + 1 = limits.maxIterations) :
    agentLoopAux env limits (fuel + 1) i st =
      .error (.iterationLimit limits.maxIterations, loopRound env st i resp) := by
  simp [agentLoopAux, hov, hc, hemp, hmax, loopRound, dispatchedOf, iterationOf]

theorem agentLoopAux_succ_next (env : Env) (limits : SafetyLimits)
    (fuel i : Nat) (st : LoopState) (resp : ApiResponse)
    (hov : ¬ getTotalRequestTokens systemPrompt st.currentMessages tools >
      limits.hardTokenLimit)
    (hc : env.complete i st.currentMessages = .ok resp)
    (hemp : (toolUseBlocksOf resp.content).isEmpty = false)
    (hmax : i + 1 ≠ limits.maxIterations) :
    agentLoopAux env limits (fuel + 1) i st =
      agentLoopAux env limits fuel (i + 1) (loopRound env st i resp) := by
  simp [agentLoopAux, hov, hc, hemp, hmax, loopRound, dispatchedOf, iterationOf]

theorem loopRound_providerCalls (env : Env) (st : LoopState) (i : Nat)
    (resp : ApiResponse) :
    (loopRound env st i resp).providerCalls = st.providerCalls + 1 := rfl

theorem loopRound_iterations (env : Env) (st : LoopState) (i : Nat)
    (resp : ApiResponse) :
    (loopRound env st i resp).iterations =
      st.iterations ++ [iterationOf env st i resp] := rfl

theorem runToolCalls_snd_length (env : Env) (tus : List ToolUseBlock) :
    ∀ msgs, ((runToolCalls env msgs tus).2).length = tus.length := by
  induction tus with
  | nil => intro msgs; rfl
  | cons tu rest ih =>
    intro msgs
    simp [runToolCalls, ih]

theorem dispatchedOf_snd_ne_nil (env : Env) (st : LoopState)
    (resp : ApiResponse)
    (hemp : (toolUseBlocksOf resp.content).isEmpty = false) :
    (dispatchedOf env st resp).2 ≠ [] := by
  rw [dispatchedOf]
  simp only [hemp, Bool.false_eq_true, if_false]
  intro h
  have hlen := runToolCalls_snd_length env (toolUseBlocksOf resp.content)
    (st.currentMessages ++ [⟨Role.assistant, MessageContent.blocks resp.content⟩])
  rw [h] at hlen
  cases he : toolUseBlocksOf resp.content with
  | nil => rw [he] at hemp; simp [List.isEmpty] at hemp
  | cons a l => rw [he] at hlen; simp at hlen

/-! ### Provider-call accounting and the iteration limit -/

theorem loopCalls_le_aux (env : Env) (limits : SafetyLimits) :
    ∀ fuel i st, loopCalls (agentLoopAux env limits fuel i st) ≤
      st.providerCalls + fuel := by
  intro fuel
  induction fuel with
  | zero =>
    intro i st
    rw [agentLoopAux_zero]
    simp [loopCalls]
  | succ fuel ih =>
    intro i st
    by_cases hov : getTotalRequestTokens systemPrompt st.currentMessages tools >
        limits.hardTokenLimit
    · rw [agentLoopAux_succ_overflow env limits fuel i st hov]
      simp [loopCalls]
    · cases hc : env.complete i st.currentMessages with
      | error e =>
        rw [agentLoopAux_succ_providerError env limits fuel i st e hov hc]
        simp [loopCalls]
      | ok resp =>
        cases hemp : (toolUseBlocksOf resp.content).isEmpty with
        | true =>
          rw [agentLoopAux_succ_break env limits fuel i st resp hov hc hemp]
          simp only [loopCalls, loopRound]
          omega
        | false =>
          by_cases hmax : i + 1 = limits.maxIterations
          · rw [agentLoopAux_succ_limit env limits fuel i st resp hov hc hemp hmax]
            simp only [loopCalls, loopRound]
            omega
          · rw [agentLoopAux_succ_next env limits fuel i st resp hov hc hemp hmax]
            have h := ih (i + 1) (loopRound env st i resp)
            rw [loopRound_providerCalls] at h
            omega

theorem agentLoopAux_alwaysTools (env : Env) (limits : SafetyLimits)
    (hprov : ∀ n msgs, ∃ resp, env.complete n msgs = .ok resp ∧
      (toolUseBlocksOf resp.content).isEmpty = false) :
    ∀ fuel i st, fuel = limits.maxIterations - i → i < limits.maxIterations →
      (∀ t l stF, agentLoopAux env limits fuel i st ≠
        .error (.contextOverflow t l, stF)) →
      ∃ stF, agentLoopAux env limits fuel i st =
          .error (.iterationLimit limits.maxIterations, stF) ∧
        stF.providerCalls = st.providerCalls + (limits.maxIterations - i) ∧
        stF.iterations.length =
          st.iterations.length + (limits.maxIterations - i) ∧
        ∃ last, stF.iterations.getLast? = some last ∧
          last.iterationNumber = limits.maxIterations ∧
          last.toolsExecuted ≠ [] := by
  intro fuel
  induction fuel with
  | zero => intro i st hfuel hi hover; omega
  | succ fuel ih =>
    intro i st hfuel hi hover
    by_cases hov : getTotalRequestTokens systemPrompt st.currentMessages tools >
        limits.hardTokenLimit
    · exact absurd (agentLoopAux_succ_overflow env limits fuel i st hov)
        (hover _ _ _)
    · obtain ⟨resp, hc, hemp⟩ := hprov i st.currentMessages
      by_cases hmax : i + 1 = limits.maxIterations
      · refine ⟨loopRound env st i resp,
          agentLoopAux_succ_limit env limits fuel i st resp hov hc hemp hmax,
          ?_, ?_, ?_⟩
        · rw [loopRound_providerCalls]; omega
        · rw [loopRound_iterations]
          simp only [List.length_append, List.length_cons, List.length_nil]
          omega
        · refine ⟨iterationOf env st i resp, ?_, hmax, ?_⟩
          · rw [loopRound_iterations, List.getLast?_concat]
          · exact dispatchedOf_snd_ne_nil env st resp hemp
      · rw [agentLoopAux_succ_next env limits fuel i st resp hov hc hemp hmax]
          at hover ⊢
        obtain ⟨stF, heq, hcalls, hlen, last, hlast, hnum, htools⟩ :=
          ih (i + 1) (loopRound env st i resp) (by omega) (by omega) hover
        refine ⟨stF, heq, ?_, ?_, ⟨last, hlast, hnum, htools⟩⟩
        · rw [hcalls, loopRound_providerCalls]; omega
        · rw [hlen, loopRound_iterations]
          simp only [List.length_append, List.length_cons, List.length_nil]
          omega

theorem processMessageT_loop_error (env : Env) (config : AgentConfig)
    (userMessage : String) (conversationId : Option String)
    (conversation : Conversation) (limits : SafetyLimits) (e : AgentError)
    (stF : LoopState)
    (hlim : config.safetyLimits.getD DEFAULT_SAFETY_LIMITS = limits)
    (hsetup : setupConversation env config limits conversationId =
      .ok conversation)
    (hloop : agentLoop env limits 0
      ⟨conversation.messages ++ [⟨Role.user, MessageContent.str userMessage⟩],
        [], "", 0, 0, 0⟩ = .error (e, stF)) :
    processMessageT env config userMessage conversationId = (.error e, []) := by
  simp only [processMessageT, hlim, hsetup, hloop]

/-- C1: (a) for every environment, configuration and loop entry point, the
agent loop makes at most `maxIterations - i` further provider calls — in
particular a whole turn makes at most `maxIterations` provider calls; and
(b) whenever the provider answers every call with at least one
tool-invocation request (and the run is not cut short by the pre-flight
overflow check), `processMessage` fails with `IterationLimitExceeded`, the
loop having recorded exactly `maxIterations` provider calls and iteration
traces, the last trace carrying iteration number `maxIterations` with its
tools dispatched (non-empty tool-trace list). -/
theorem processMessage_iteration_limit :
    (∀ (env : Env) (limits : SafetyLimits) (i : Nat) (st : LoopState),
      loopCalls (agentLoop env limits i st) ≤
        st.providerCalls + (limits.maxIterations - i)) ∧
    (∀ (env : Env) (config : AgentConfig) (limits : SafetyLimits)
        (conversation : Conversation) (userMessage : String)
        (conversationId : Option String),
      config.safetyLimits.getD DEFAULT_SAFETY_LIMITS = limits →
      setupConversation env config limits conversationId = .ok conversation →
      (∀ n msgs, ∃ resp, env.complete n msgs = .ok resp ∧
        (toolUseBlocksOf resp.content).isEmpty = false) →
      (∀ t l stF, agentLoop env limits 0
          ⟨conversation.messages ++
            [⟨Role.user, MessageContent.str userMessage⟩], [], "", 0, 0, 0⟩ ≠
          .error (.contextOverflow t l, stF)) →
      1 ≤ limits.maxIterations →
      processMessage env config userMessage conversationId =
          .error (.iterationLimit limits.maxIterations) ∧
        ∃ stF, agentLoop env limits 0
            ⟨conversation.messages ++
              [⟨Role.user, MessageContent.str userMessage⟩], [], "", 0, 0, 0⟩ =
            .error (.iterationLimit limits.maxIterations, stF) ∧
          stF.providerCalls = limits.maxIterations ∧
          stF.iterations.length = limits.maxIterations ∧
          ∃ last, stF.iterations.getLast? = some last ∧
            last.iterationNumber = limits.maxIterations ∧
            last.toolsExecuted ≠ []) := by
  constructor
  · intro env limits i st
    exact loopCalls_le_aux env limits (limits.maxIterations - i) i st
  · intro env config limits conversation userMessage conversationId hlim hsetup
      hprov hover h1
    simp only [agentLoop] at hover
    obtain ⟨stF, heq, hcalls, hlen, hlast⟩ :=
      agentLoopAux_alwaysTools env limits hprov (limits.maxIterations - 0) 0
        ⟨conversation.messages ++ [⟨Role.user, MessageContent.str userMessage⟩],
          [], "", 0, 0, 0⟩ rfl (by omega) hover
    rw [show (agentLoop env limits 0
        ⟨conversation.messages ++ [⟨Role.user, MessageContent.str userMessage⟩],
          [], "", 0, 0, 0⟩ : Except (AgentError × LoopState) LoopState) =
        agentLoopAux env limits (limits.maxIterations - 0) 0
          ⟨conversation.messages ++
            [⟨Role.user, MessageContent.str userMessage⟩], [], "", 0, 0, 0⟩
      from rfl]
    refine ⟨?_, stF, heq, by simpa using hcalls, by simpa using hlen, hlast⟩
    have hp := processMessageT_loop_error env config userMessage conversationId
      conversation limits (.iterationLimit limits.maxIterations) stF hlim
      hsetup heq
    rw [processMessage, hp]

/-- Witness for C1 at a concrete tool-looping environment with
`maxIterations = 1`: the loop from a one-message history makes at most one
provider call, and the turn fails with the iteration-limit error. -/
theorem processMessage_iteration_limit_witness :
    loopCalls (agentLoop envTools ⟨1, 200000, 150000, 4096⟩ 0
        ⟨[⟨Role.user, MessageContent.str "hi"⟩], [], "", 0, 0, 0⟩) ≤
      0 + (1 - 0) ∧
    processMessage envTools configTools "hi" none =
      .error (.iterationLimit 1) := by
  constructor
  · exact processMessage_iteration_limit.1 envTools ⟨1, 200000, 150000, 4096⟩ 0
      ⟨[⟨Role.user, MessageContent.str "hi"⟩], [], "", 0, 0, 0⟩
  · have hcomp : agentLoop envTools ⟨1, 200000, 150000, 4096⟩ 0
        ⟨[⟨Role.user, MessageContent.str "hi"⟩], [], "", 0, 0, 0⟩ =
        .error (.iterationLimit 1,
          loopRound envTools
            ⟨[⟨Role.user, MessageContent.str "hi"⟩], [], "", 0, 0, 0⟩ 0
            respTools) := by decide
    have hover : ∀ t l stF, agentLoop envTools ⟨1, 200000, 150000, 4096⟩ 0
        ⟨[⟨Role.user, MessageContent.str "hi"⟩], [], "", 0, 0, 0⟩ ≠
        .error (.contextOverflow t l, stF) := by
      intro t l stF h
      rw [hcomp] at h
      simp at h
    exact (processMessage_iteration_limit.2 envTools configTools
      ⟨1, 200000, 150000, 4096⟩ emptyConversation "hi" none rfl rfl
      (fun n msgs => ⟨respTools, rfl, rfl⟩) hover (by decide)).1

/-- C2: if at any iteration of the loop the authoritative pre-flight estimate
for `(systemPrompt, currentMessages, toolSchemas)` exceeds `hardTokenLimit`,
the loop fails right there with `ContextOverflow` and returns the entry state
unchanged — in particular its `providerCalls` counter is unchanged, so no
provider call is made in that iteration or afterwards; lifted to the turn:
when this happens on the first iteration, `processMessage` fails with
`ContextOverflow` having made no provider call at all. -/
theorem processMessage_contextOverflow :
    (∀ (env : Env) (limits : SafetyLimits) (i : Nat) (st : LoopState),
      i < limits.maxIterations →
      getTotalRequestTokens systemPrompt st.currentMessages tools >
        limits.hardTokenLimit →
      agentLoop env limits i st =
        .error (.contextOverflow
          (getTotalRequestTokens systemPrompt st.currentMessages tools)
          limits.hardTokenLimit, st)) ∧
    (∀ (env : Env) (config : AgentConfig) (limits : SafetyLimits)
        (conversation : Conversation) (userMessage : String)
        (conversationId : Option String),
      config.safetyLimits.getD DEFAULT_SAFETY_LIMITS = limits →
      setupConversation env config limits conversationId = .ok conversation →
      0 < limits.maxIterations →
      getTotalRequestTokens systemPrompt
          (conversation.messages ++
            [⟨Role.user, MessageContent.str userMessage⟩]) tools >
        limits.hardTokenLimit →
      processMessage env config userMessage conversationId =
        .error (.contextOverflow
          (getTotalRequestTokens systemPrompt
            (conversation.messages ++
              [⟨Role.user, MessageContent.str userMessage⟩]) tools)
          limits.hardTokenLimit)) := by
  have hloop : ∀ (env : Env) (limits : SafetyLimits) (i : Nat) (st : LoopState),
      i < limits.maxIterations →
      getTotalRequestTokens systemPrompt st.currentMessages tools >
        limits.hardTokenLimit →
      agentLoop env limits i st =
        .error (.contextOverflow
          (getTotalRequestTokens systemPrompt st.currentMessages tools)
          limits.hardTokenLimit, st) := by
    intro env limits i st hi hov
    obtain ⟨fuel, hf⟩ : ∃ fuel, limits.maxIterations - i = fuel + 1 :=
      ⟨limits.maxIterations - i - 1, by omega⟩
    rw [agentLoop, hf]
    exact agentLoopAux_succ_overflow env limits fuel i st hov
  refine ⟨hloop, ?_⟩
  intro env config limits conversation userMessage conversationId hlim hsetup
    hm hov
  have h := hloop env limits 0
    ⟨conversation.messages ++ [⟨Role.user, MessageContent.str userMessage⟩],
      [], "", 0, 0, 0⟩ hm hov
  have hp := processMessageT_loop_error env config userMessage conversationId
    conversation limits _ _ hlim hsetup h
  rw [processMessage, hp]

theorem countTokens_systemPrompt_pos : 0 < countTokens systemPrompt := by
  decide

/-- Witness for C2 at a concrete configuration whose hard token limit is 0:
the first pre-flight estimate necessarily exceeds it (the system prompt alone
has positive estimate), and the turn fails with `ContextOverflow`. -/
theorem processMessage_contextOverflow_witness :
    processMessage envText configOverflow "hi" none =
      .error (.contextOverflow
        (getTotalRequestTokens systemPrompt
          [⟨Role.user, MessageContent.str "hi"⟩] tools) 0) := by
  have hov : getTotalRequestTokens systemPrompt
      (emptyConversation.messages ++
        [⟨Role.user, MessageContent.str "hi"⟩]) tools > 0 := by
    have hpos := countTokens_systemPrompt_pos
    unfold getTotalRequestTokens
    omega
  have hm : 0 < (⟨1, 0, 150000, 4096⟩ : SafetyLimits).maxIterations := by
    decide
  have h := processMessage_contextOverflow.2 envText configOverflow
    ⟨1, 0, 150000, 4096⟩ emptyConversation "hi" none rfl rfl hm hov
  exact h

/-! ### Tool dispatch never aborts a turn -/

/-- C10: tool dispatch never aborts a turn.  `executeToolCall` is a total
function into `ToolExecutionTrace` (it cannot throw): an unknown tool name
yields a `{success: false}` result carrying an `Unknown tool` error string,
and a throwing handler yields a `{success: false}` result carrying the
exception message.  In the loop, each tool result — for a failed call, the
`Error: <message>` text — is appended as a user message holding a single
`tool_result` block correlated by the call id, and when more iterations are
allowed the loop simply continues with the extended message list. -/
theorem toolDispatch_never_aborts :
    (∀ (env : Env) (toolUse : ToolUseBlock),
      env.toolRegistry toolUse.name = none →
      executeToolCall env toolUse =
        ⟨toolUse.name, env.time, env.time, 0, toolUse.input,
          ⟨false, none, some ("Unknown tool: " ++ toolUse.name)⟩, false⟩) ∧
    (∀ (env : Env) (toolUse : ToolUseBlock) handler msg,
      env.toolRegistry toolUse.name = some handler →
      handler toolUse.input = .error msg →
      executeToolCall env toolUse =
        ⟨toolUse.name, env.time, env.time, 0, toolUse.input,
          ⟨false, none, some msg⟩, false⟩) ∧
    (∀ (env : Env) (msgs : List MessageParam) (toolUse : ToolUseBlock)
        (rest : List ToolUseBlock),
      (executeToolCall env toolUse).success = false →
      runToolCalls env msgs (toolUse :: rest) =
        ((runToolCalls env (msgs ++
            [⟨Role.user, MessageContent.blocks
              [ContentBlock.toolResult toolUse.id
                (some ("Error: " ++
                  ((executeToolCall env toolUse).output.error.getD
                    "undefined")))]⟩]) rest).1,
         executeToolCall env toolUse ::
           (runToolCalls env (msgs ++
             [⟨Role.user, MessageContent.blocks
               [ContentBlock.toolResult toolUse.id
                 (some ("Error: " ++
                   ((executeToolCall env toolUse).output.error.getD
                     "undefined")))]⟩]) rest).2)) ∧
    (∀ (env : Env) (limits : SafetyLimits) (fuel i : Nat) (st : LoopState)
        (resp : ApiResponse),
      ¬ getTotalRequestTokens systemPrompt st.currentMessages tools >
        limits.hardTokenLimit →
      env.complete i st.currentMessages = .ok resp →
      (toolUseBlocksOf resp.content).isEmpty = false →
      i + 1 ≠ limits.maxIterations →
      agentLoopAux env limits (fuel + 1) i st =
        agentLoopAux env limits fuel (i + 1) (loopRound env st i resp)) := by
  refine ⟨?_, ?_, ?_, ?_⟩
  · intro env toolUse h
    simp [executeToolCall, h]
  · intro env toolUse handler msg h hh
    simp [executeToolCall, h, hh]
  · intro env msgs toolUse rest hsucc
    simp [runToolCalls, toolResultContent, hsucc]
  · intro env limits fuel i st resp hov hc hemp hmax
    exact agentLoopAux_succ_next env limits fuel i st resp hov hc hemp hmax

/-- Witness for C10 at concrete environments: an unregistered tool name and a
throwing handler each produce failure traces (not exceptions); the failure
text is fed back as a correlated `tool_result` user message; and a concrete
mid-run loop state steps to the next iteration. -/
theorem toolDispatch_never_aborts_witness :
    executeToolCall envTools ⟨"call-1", "missing_tool", "arg"⟩ =
      ⟨"missing_tool", "T", "T", 0, "arg",
        ⟨false, none, some "Unknown tool: missing_tool"⟩, false⟩ ∧
    executeToolCall envThrow ⟨"call-2", "boom", "x"⟩ =
      ⟨"boom", "T", "T", 0, "x", ⟨false, none, some "kaboom"⟩, false⟩ ∧
    runToolCalls envTools [] [⟨"call-1", "missing_tool", "arg"⟩] =
      ([⟨Role.user, MessageContent.blocks
          [ContentBlock.toolResult "call-1"
            (some "Error: Unknown tool: missing_tool")]⟩],
       [executeToolCall envTools ⟨"call-1", "missing_tool", "arg"⟩]) ∧
    agentLoopAux envTools ⟨5, 200000, 150000, 4096⟩ (4 + 1) 0
        ⟨[⟨Role.user, MessageContent.str "hi"⟩], [], "", 0, 0, 0⟩ =
      agentLoopAux envTools ⟨5, 200000, 150000, 4096⟩ 4 1
        (loopRound envTools
          ⟨[⟨Role.user, MessageContent.str "hi"⟩], [], "", 0, 0, 0⟩ 0
          respTools) := by
  refine ⟨?_, ?_, ?_, ?_⟩
  · exact toolDispatch_never_aborts.1 envTools ⟨"call-1", "missing_tool", "arg"⟩
      rfl
  · exact toolDispatch_never_aborts.2.1 envThrow ⟨"call-2", "boom", "x"⟩
      (fun _ => .error "kaboom") "kaboom" rfl rfl
  · have h := toolDispatch_never_aborts.2.2.1 envTools []
      ⟨"call-1", "missing_tool", "arg"⟩ [] (by decide)
    simpa [runToolCalls, executeToolCall, envTools, envText] using h
  · exact toolDispatch_never_aborts.2.2.2 envTools ⟨5, 200000, 150000, 4096⟩ 4 0
      ⟨[⟨Role.user, MessageContent.str "hi"⟩], [], "", 0, 0, 0⟩ respTools
      (by decide) rfl rfl (by decide)

/-! ### Trace persistence -/

theorem processMessageT_setup_error (env : Env) (config : AgentConfig)
    (userMessage : String) (conversationId : Option String) (e : AgentError)
    (hsetup : setupConversation env config
      (config.safetyLimits.getD DEFAULT_SAFETY_LIMITS) conversationId =
      .error e) :
    processMessageT env config userMessage conversationId = (.error e, []) := by
  simp only [processMessageT, hsetup]

theorem processMessageT_save_error (env : Env) (config : AgentConfig)
    (userMessage : String) (conversationId : Option String)
    (conversation : Conversation) (st : LoopState) (e : AgentError)
    (hsetup : setupConversation env config
      (config.safetyLimits.getD DEFAULT_SAFETY_LIMITS) conversationId =
      .ok conversation)
    (hloop : agentLoop env (config.safetyLimits.getD DEFAULT_SAFETY_LIMITS) 0
      ⟨conversation.messages ++ [⟨Role.user, MessageContent.str userMessage⟩],
        [], "", 0, 0, 0⟩ = .ok st)
    (hsave : env.saveConversation (updatedConversationOf env conversation st) =
      .error e) :
    processMessageT env config userMessage conversationId = (.error e, []) := by
  simp only [processMessageT, hsetup, hloop, hsave]

theorem processMessageT_success (env : Env) (config : AgentConfig)
    (userMessage : String) (conversationId : Option String)
    (conversation : Conversation) (st : LoopState)
    (hsetup : setupConversation env config
      (config.safetyLimits.getD DEFAULT_SAFETY_LIMITS) conversationId =
      .ok conversation)
    (hloop : agentLoop env (config.safetyLimits.getD DEFAULT_SAFETY_LIMITS) 0
      ⟨conversation.messages ++ [⟨Role.user, MessageContent.str userMessage⟩],
        [], "", 0, 0, 0⟩ = .ok st)
    (hsave : env.saveConversation (updatedConversationOf env conversation st) =
      .ok ()) :
    processMessageT env config userMessage conversationId =
      (.ok { response := st.assistantResponse
             updatedConversation := updatedConversationOf env conversation st
             usageInputTokens := st.totalInputTokens
             usageOutputTokens := st.totalOutputTokens
             trace := traceOf env config conversation userMessage st },
       [traceOf env config conversation userMessage st]) := by
  simp only [processMessageT, hsetup, hloop, hsave]

theorem processMessageT_snd (env : Env) (config : AgentConfig)
    (userMessage : String) (conversationId : Option String) :
    (processMessageT env config userMessage conversationId).2 =
      match (processMessageT env config userMessage conversationId).1 with
      | .ok resp => [resp.trace]
      | .error _ => [] := by
  cases hsetup : setupConversation env config
      (config.safetyLimits.getD DEFAULT_SAFETY_LIMITS) conversationId with
  | error e =>
    rw [processMessageT_setup_error env config userMessage conversationId e
      hsetup]
  | ok conversation =>
    cases hloop : agentLoop env (config.safetyLimits.getD DEFAULT_SAFETY_LIMITS)
        0 ⟨conversation.messages ++
          [⟨Role.user, MessageContent.str userMessage⟩], [], "", 0, 0, 0⟩ with
    | error p =>
      rw [processMessageT_loop_error env config userMessage conversationId
        conversation (config.safetyLimits.getD DEFAULT_SAFETY_LIMITS) p.1 p.2
        rfl hsetup (by rw [hloop])]
    | ok st =>
      cases hsave : env.saveConversation
          (updatedConversationOf env conversation st) with
      | error e =>
        rw [processMessageT_save_error env config userMessage conversationId
          conversation st e hsetup hloop hsave]
      | ok u =>
        cases u
        rw [processMessageT_success env config userMessage conversationId
          conversation st hsetup hloop hsave]

/-- C7 counterexample: in a concrete tool-looping run with
`maxIterations = 1`, the turn fails with `IterationLimitExceeded` and the
list of traces handed to the trace sink is empty — no `ExecutionTrace` is
persisted, because the source returns the error from inside the loop, before
step 5 ever builds the trace. -/
theorem trace_on_iteration_limit_counterexample :
    processMessageT envTools configTools "hi" none =
        (.error (.iterationLimit 1), []) ∧
      ¬ (([] : List AgentExecutionTrace).length = 1) := by
  exact ⟨by decide, by decide⟩

/-- C7 (amended): exactly one `ExecutionTrace` is created and handed to the
trace sink for every call that ends in the `Success` terminal state (namely
the trace returned in the response); a call that fails with
`IterationLimitExceeded` hands no trace to the sink — the error returns
before the trace is built. -/
theorem trace_persisted_once_on_success :
    (∀ (env : Env) (config : AgentConfig) (userMessage : String)
        (conversationId : Option String) (resp : AgentResponse)
        (ts : List AgentExecutionTrace),
      processMessageT env config userMessage conversationId = (.ok resp, ts) →
      ts = [resp.trace]) ∧
    (∀ (env : Env) (config : AgentConfig) (userMessage : String)
        (conversationId : Option String) (m : Nat)
        (ts : List AgentExecutionTrace),
      processMessageT env config userMessage conversationId =
        (.error (.iterationLimit m), ts) →
      ts = []) := by
  constructor
  · intro env config userMessage conversationId resp ts h
    have hs := processMessageT_snd env config userMessage conversationId
    rw [h] at hs
    simpa using hs
  · intro env config userMessage conversationId m ts h
    have hs := processMessageT_snd env config userMessage conversationId
    rw [h] at hs
    simpa using hs

/-- Witness for C7 (amended) at concrete runs: the plain-text run persists
exactly its one trace; the tool-looping run persists none. -/
theorem trace_persisted_once_on_success_witness :
    processMessageT envText configTools "hi" none =
        (.ok successResponse, [successResponse.trace]) ∧
      processMessageT envTools configTools "hi" none =
        (.error (.iterationLimit 1), []) := by
  constructor
  · have hok : (processMessageT envText configTools "hi" none).1 =
        .ok successResponse := by decide
    have hts := trace_persisted_once_on_success.1 envText configTools "hi" none
      successResponse (processMessageT envText configTools "hi" none).2
      (by rw [← hok])
    rw [show processMessageT envText configTools "hi" none =
        ((processMessageT envText configTools "hi" none).1,
         (processMessageT envText configTools "hi" none).2) from rfl,
      hok, hts]
  · have herr : (processMessageT envTools configTools "hi" none).1 =
        .error (.iterationLimit 1) := by decide
    have hts := trace_persisted_once_on_success.2 envTools configTools "hi" none
      1 (processMessageT envTools configTools "hi" none).2 (by rw [← herr])
    rw [show processMessageT envTools configTools "hi" none =
        ((processMessageT envTools configTools "hi" none).1,
         (processMessageT envTools configTools "hi" none).2) from rfl,
      herr, hts]

/-! ### Token-count recomputability -/

theorem summarizeOldMessages_tokenCountAfter (env : Env)
    (messages : List MessageParam) (keepRecentCount : Nat)
    (ms : List MessageParam) (md : SummaryMetadata)
    (h : summarizeOldMessages env messages keepRecentCount = .ok (ms, md)) :
    md.tokenCountAfter = countMessageTokens ms := by
  by_cases hle : messages.length ≤ keepRecentCount
  · rw [summarizeOldMessages, if_pos hle] at h
    exact Except.noConfusion h
  · rw [summarizeOldMessages_eq env messages keepRecentCount hle] at h
    cases hc : env.summaryComplete (summaryPrompt (conversationTextOf
        (jsSliceDropLast messages keepRecentCount))) with
    | error e =>
      rw [hc] at h
      exact Except.noConfusion h
    | ok responseContent =>
      rw [hc] at h
      simp only [Except.ok.injEq, Prod.mk.injEq] at h
      obtain ⟨h1, h2⟩ := h
      rw [← h2, ← h1]

theorem processMessageT_ok_conversation (env : Env) (config : AgentConfig)
    (userMessage : String) (conversationId : Option String)
    (resp : AgentResponse) (ts : List AgentExecutionTrace)
    (h : processMessageT env config userMessage conversationId =
      (.ok resp, ts)) :
    resp.updatedConversation.tokenCount =
      some (getTotalRequestTokens systemPrompt
        resp.updatedConversation.messages tools) := by
  cases hsetup : setupConversation env config
      (config.safetyLimits.getD DEFAULT_SAFETY_LIMITS) conversationId with
  | error e =>
    rw [processMessageT_setup_error env config userMessage conversationId e
      hsetup] at h
    simp at h
  | ok conversation =>
    cases hloop : agentLoop env (config.safetyLimits.getD DEFAULT_SAFETY_LIMITS)
        0 ⟨conversation.messages ++
          [⟨Role.user, MessageContent.str userMessage⟩], [], "", 0, 0, 0⟩ with
    | error p =>
      rw [processMessageT_loop_error env config userMessage conversationId
        conversation (config.safetyLimits.getD DEFAULT_SAFETY_LIMITS) p.1 p.2
        rfl hsetup (by rw [hloop])] at h
      simp at h
    | ok st =>
      cases hsave : env.saveConversation
          (updatedConversationOf env conversation st) with
      | error e =>
        rw [processMessageT_save_error env config userMessage conversationId
          conversation st e hsetup hloop hsave] at h
        simp at h
      | ok u =>
        cases u
        rw [processMessageT_success env config userMessage conversationId
          conversation st hsetup hloop hsave] at h
        simp only [Prod.mk.injEq, Except.ok.injEq] at h
        obtain ⟨h1, _⟩ := h
        rw [← h1]
        rfl

/-- C8 counterexample: two conversations produced by the core carry the same
`messages` but different `tokenCount`s, so no single fixed function of the
messages computes both.  The summarization path
(`applyContextManagement`, `needsSummarization` true) stores
`countMessageTokens(messages)` (here 23), while the success path of
`processMessage` stores the full request estimate
`getTotalRequestTokens(systemPrompt, messages, tools)` (here 2011), which
adds the constant system-prompt and tool-schema overhead. -/
theorem tokenCount_two_functions_counterexample :
    ∃ c1 r,
      needsSummarization ⟨"a", "t", "t",
          [⟨Role.user, MessageContent.str "x"⟩,
           ⟨Role.assistant, MessageContent.blocks [.text "hello"]⟩],
          some 150000, none⟩ 150000 = true ∧
      applyContextManagement envStub ⟨"a", "t", "t",
          [⟨Role.user, MessageContent.str "x"⟩,
           ⟨Role.assistant, MessageContent.blocks [.text "hello"]⟩],
          some 150000, none⟩ ⟨150000, 1, "k", "m"⟩ = .ok c1 ∧
      processMessage envText configTools "[Previous conversation summary: s]"
        none = .ok r ∧
      c1.messages = r.updatedConversation.messages ∧
      c1.tokenCount ≠ r.updatedConversation.tokenCount := by
  refine ⟨⟨"a", "t", "t",
      [⟨Role.user, MessageContent.str "[Previous conversation summary: s]"⟩,
       ⟨Role.assistant, MessageContent.blocks [.text "hello"]⟩],
      some 23, some [⟨"T", 2, 1, 15, 23⟩]⟩,
    { response := "hello"
      updatedConversation := ⟨"c1", "t0", "T",
        [⟨Role.user, MessageContent.str "[Previous conversation summary: s]"⟩,
         ⟨Role.assistant, MessageContent.blocks [.text "hello"]⟩],
        some 2011, none⟩
      usageInputTokens := 10
      usageOutputTokens := 5
      trace := ⟨"c1", "U", "[Previous conversation summary: s]", "hello", "T",
        "T", 0, 10, 5, 15, 0, [⟨1, 10, 5, 15, [], "end_turn", "T"⟩],
        "model-x"⟩ },
    by decide, by decide, by decide, by decide, by decide⟩

/-- C8 (amended): every Conversation produced by the core carries a
`tokenCount` recomputable from its `messages` field — but by two different
fixed estimation functions depending on the producing path:
`applyContextManagement` (summarization path) stores
`countMessageTokens(messages)`, while the success path of `processMessage`
stores `getTotalRequestTokens(systemPrompt, messages, toolSchemas)`, i.e.
the message estimate plus the constant system-prompt and tool overhead. -/
theorem conversation_tokenCount_recomputable :
    (∀ (env : Env) (conversation : Conversation) (config : ContextConfig)
        (c : Conversation),
      needsSummarization conversation config.threshold = true →
      applyContextManagement env conversation config = .ok c →
      c.tokenCount = some (countMessageTokens c.messages)) ∧
    (∀ (env : Env) (config : AgentConfig) (userMessage : String)
        (conversationId : Option String) (resp : AgentResponse)
        (ts : List AgentExecutionTrace),
      processMessageT env config userMessage conversationId = (.ok resp, ts) →
      resp.updatedConversation.tokenCount =
        some (getTotalRequestTokens systemPrompt
          resp.updatedConversation.messages tools)) := by
  constructor
  · intro env conversation config c hneed happ
    rw [applyContextManagement, if_neg (by simp [hneed])] at happ
    cases hs : summarizeOldMessages env conversation.messages
        config.keepRecentCount with
    | error e =>
      rw [hs] at happ
      exact Except.noConfusion happ
    | ok p =>
      obtain ⟨ms, md⟩ := p
      rw [hs] at happ
      simp only [Except.ok.injEq] at happ
      rw [← happ]
      simp only
      rw [summarizeOldMessages_tokenCountAfter env conversation.messages
        config.keepRecentCount ms md hs]
  · exact processMessageT_ok_conversation

/-- Witness for C8 (amended) at the two concrete runs of the counterexample:
the summarized conversation stores exactly `countMessageTokens` of its
messages, and the turn-produced conversation stores exactly the full request
estimate of its messages. -/
theorem conversation_tokenCount_recomputable_witness :
    (some 23 : Option Nat) =
        some (countMessageTokens
          [⟨Role.user, MessageContent.str "[Previous conversation summary: s]"⟩,
           ⟨Role.assistant, MessageContent.blocks [.text "hello"]⟩]) ∧
      successResponse.updatedConversation.tokenCount =
        some (getTotalRequestTokens systemPrompt
          successResponse.updatedConversation.messages tools) := by
  constructor
  · have h := conversation_tokenCount_recomputable.1 envStub
      ⟨"a", "t", "t",
        [⟨Role.user, MessageContent.str "x"⟩,
         ⟨Role.assistant, MessageContent.blocks [.text "hello"]⟩],
        some 150000, none⟩
      ⟨150000, 1, "k", "m"⟩
      ⟨"a", "t", "t",
        [⟨Role.user, MessageContent.str "[Previous conversation summary: s]"⟩,
         ⟨Role.assistant, MessageContent.blocks [.text "hello"]⟩],
        some 23, some [⟨"T", 2, 1, 15, 23⟩]⟩
      (by decide) (by decide)
    exact h
  · exact conversation_tokenCount_recomputable.2 envText configTools "hi" none
      successResponse [successResponse.trace] (by decide)

end Assistant
